import Mathlib

/-!
Shallow embedding of the change-driven deployment orchestrator of the
smart-commit repository.

The embedded functions mirror, line by line:
  - `ProjectAnalyzer.analyzeChangesForSmartDeploy`,
    `ProjectAnalyzer.generateSmartDeployCommands`,
    `ProjectAnalyzer.generateServerCommandsConfig` and
    `ProjectAnalyzer.getDefaultConfig` (src/unnamed/part_004);
  - `ServerCommandExecutor.executeCommands`, `executeViaSsh`,
    `executeCommandsSequentially`, `executeSingleCommand` and
    `validateConfig` (src/src/application/services/WorkflowOrchestrator.ts).

External effects (the git diff subprocess, the SSH transport, the
language-model response and the process environment) are passed in as
explicit parameters; everything else follows the TypeScript source.

JavaScript string primitives (`trim`, `toLowerCase`, `split`, `includes`,
`startsWith`) are embedded as structurally recursive functions over the
character list of a `String`, so that every definition evaluates inside
the kernel.  They agree with the JavaScript methods on the ASCII inputs
this program manipulates.
-/

/-- Whitespace recognised by JavaScript `String.prototype.trim` (the
ASCII part, which is all this program ever feeds it). -/
def isJsWhitespace (c : Char) : Bool :=
  c == ' ' || c == '\t' || c == '\n' || c == '\r'

/-- JavaScript `s.trim()`. -/
def jsTrim (s : String) : String :=
  ⟨((s.data.dropWhile isJsWhitespace).reverse.dropWhile isJsWhitespace).reverse⟩

/-- ASCII lower-casing of one character, as JavaScript `toLowerCase`
acts on ASCII. -/
def asciiLower (c : Char) : Char :=
  if 65 ≤ c.toNat && c.toNat ≤ 90 then Char.ofNat (c.toNat + 32) else c

/-- JavaScript `s.toLowerCase()` (ASCII fragment). -/
def jsToLowerCase (s : String) : String :=
  ⟨s.data.map asciiLower⟩

/-- Split a character list on a separator character, JavaScript
`split` semantics: the empty input yields one empty field. -/
def splitCharsOn (sep : Char) : List Char → List (List Char)
  | [] => [[]]
  | c :: rest =>
    let r := splitCharsOn sep rest
    if c == sep then [] :: r
    else
      match r with
      | [] => [[c]]
      | h :: t => (c :: h) :: t

/-- JavaScript `s.split('\n')`. -/
def jsSplitNewline (s : String) : List String :=
  (splitCharsOn '\n' s.data).map (fun cs => ⟨cs⟩)

/-- JavaScript `s.startsWith(pat)`. -/
def jsStartsWith (s pat : String) : Bool :=
  pat.data.isPrefixOf s.data

/-- JavaScript `String.prototype.includes`, over character lists. -/
def charsHaveInfix (pat : List Char) : List Char → Bool
  | [] => pat.isEmpty
  | c :: rest => pat.isPrefixOf (c :: rest) || charsHaveInfix pat rest

/-- JavaScript `s.includes(pat)`. -/
def strIncludes (s pat : String) : Bool :=
  charsHaveInfix pat.data s.data

/-- JavaScript truthiness test for an optional-string field:
`!x` is true exactly when the field is `undefined` or the empty string. -/
def optStrFalsy : Option String → Bool
  | none => true
  | some s => s == ""

/-- `SmartDeployAnalysis` (src/unnamed/part_004, lines 16-26). -/
structure SmartDeployAnalysis where
  needsGitPull : Bool
  needsComposerInstall : Bool
  needsComposerUpdate : Bool
  needsNpmInstall : Bool
  needsNpmBuild : Bool
  needsLaravelOptimize : Bool
  needsLaravelMigrate : Bool
  needsSystemRestart : Bool
  reasons : List String
deriving Repr, DecidableEq

/-- The per-file dependency-manifest test (`composer.json` /
`composer.lock`), applied to the lowercased path (part_004, line 172). -/
def condComposerDeps (p : String) : Bool :=
  p == "composer.json" || p == "composer.lock"

/-- The per-file NPM-manifest test (part_004, line 178). -/
def condNpmDeps (p : String) : Bool :=
  p == "package.json" || p == "package-lock.json"

/-- The Laravel configuration test (part_004, lines 186-189).  Note the
source checks the lowercased path for the literal `app/Providers/`. -/
def condLaravelConfig (p : String) : Bool :=
  strIncludes p "config/" || strIncludes p ".env" ||
    strIncludes p "routes/" || strIncludes p "app/Providers/"

/-- The Laravel migration test (part_004, line 195). -/
def condLaravelMigration (p : String) : Bool :=
  strIncludes p "database/migrations/"

/-- The Laravel frontend-asset test (part_004, lines 201-205). -/
def condLaravelFrontend (p : String) : Bool :=
  strIncludes p "resources/js/" || strIncludes p "resources/css/" ||
    strIncludes p "resources/views/" || strIncludes p "webpack.mix.js" ||
    strIncludes p "vite.config.js"

/-- The Node.js source-file test (part_004, lines 211-217). -/
def condNodeSource (p : String) : Bool :=
  strIncludes p "src/" || strIncludes p "public/" || strIncludes p "assets/" ||
    strIncludes p "webpack.config.js" || strIncludes p "vite.config.js" ||
    strIncludes p "tsconfig.json" || strIncludes p "babel.config.js"

/-- The system-configuration test (part_004, lines 224-226). -/
def condSystemConfig (p : String) : Bool :=
  strIncludes p "nginx.conf" || strIncludes p "php.ini" ||
    strIncludes p "supervisor/"

/-- One iteration of the `for (const file of changedFiles)` loop of
`analyzeChangesForSmartDeploy` (part_004, lines 167-230). -/
def analyzeFile (actualProjectType : String) (projectFramework : Option String)
    (analysis : SmartDeployAnalysis) (file : String) : SmartDeployAnalysis :=
  let filePath := jsToLowerCase file
  let analysis :=
    if condComposerDeps filePath then
      { analysis with
        needsComposerInstall := true
        reasons := analysis.reasons ++
          ["Composer dependencies changed (" ++ file ++ ")"] }
    else analysis
  let analysis :=
    if condNpmDeps filePath then
      { analysis with
        needsNpmInstall := true
        reasons := analysis.reasons ++
          ["NPM dependencies changed (" ++ file ++ ")"] }
    else analysis
  let analysis :=
    if actualProjectType == "php" && projectFramework == some "laravel" then
      let analysis :=
        if condLaravelConfig filePath then
          { analysis with
            needsLaravelOptimize := true
            reasons := analysis.reasons ++
              ["Laravel configuration changed (" ++ file ++ ")"] }
        else analysis
      let analysis :=
        if condLaravelMigration filePath then
          { analysis with
            needsLaravelMigrate := true
            reasons := analysis.reasons ++
              ["Database migration detected (" ++ file ++ ")"] }
        else analysis
      let analysis :=
        if condLaravelFrontend filePath then
          { analysis with
            needsNpmBuild := true
            reasons := analysis.reasons ++
              ["Frontend files changed (" ++ file ++ ")"] }
        else analysis
      analysis
    else if actualProjectType == "nodejs" then
      if condNodeSource filePath then
        { analysis with
          needsNpmBuild := true
          reasons := analysis.reasons ++
            ["Source files changed (" ++ file ++ ")"] }
      else analysis
    else analysis
  if condSystemConfig filePath then
    { analysis with
      needsSystemRestart := true
      reasons := analysis.reasons ++
        ["System configuration changed (" ++ file ++ ")"] }
  else analysis

/-- The disjunction of every category predicate tested by a loop
iteration, for a given project type and framework. -/
def matchesAnyPredicate (actualProjectType : String)
    (projectFramework : Option String) (file : String) : Bool :=
  let p := jsToLowerCase file
  condComposerDeps p || condNpmDeps p ||
    (if actualProjectType == "php" && projectFramework == some "laravel" then
      condLaravelConfig p || condLaravelMigration p || condLaravelFrontend p
    else if actualProjectType == "nodejs" then
      condNodeSource p
    else false) ||
    condSystemConfig p

/-- The list of changed files derived from the trimmed `git diff` output
(part_004, line 163). -/
def changedFilesOf (raw : String) : List String :=
  (jsSplitNewline (jsTrim raw)).filter (fun f => jsTrim f != "")

/-- `ProjectAnalyzer.analyzeChangesForSmartDeploy` (part_004, lines
123-242).  `actualProjectType` and `projectFramework` stand for the
resolved project type and framework of lines 138-149; `gitDiffOutcome`
is the outcome of the `git diff --name-only HEAD~1 HEAD` subprocess of
lines 152-156: `none` when `execSync` throws, `some raw` its raw output
otherwise (the source trims the output on receipt). -/
def analyzeChangesForSmartDeploy (actualProjectType : String)
    (projectFramework : Option String) (gitDiffOutcome : Option String) :
    SmartDeployAnalysis :=
  let analysis : SmartDeployAnalysis :=
    { needsGitPull := true
      needsComposerInstall := false
      needsComposerUpdate := false
      needsNpmInstall := false
      needsNpmBuild := false
      needsLaravelOptimize := false
      needsLaravelMigrate := false
      needsSystemRestart := false
      reasons := [] }
  match gitDiffOutcome with
  | none =>
    { analysis with
      needsComposerInstall := true
      needsNpmInstall := true
      needsNpmBuild := true
      needsLaravelOptimize := true
      reasons := ["Git analysis failed, running full deployment"] }
  | some raw =>
    let gitDiff := jsTrim raw
    if gitDiff == "" then
      { analysis with reasons := ["No changes detected in last commit"] }
    else
      let changedFiles := (jsSplitNewline gitDiff).filter (fun f => jsTrim f != "")
      let analysis :=
        { analysis with reasons :=
            ["Detected changes in " ++ toString changedFiles.length ++ " files"] }
      changedFiles.foldl (analyzeFile actualProjectType projectFramework) analysis

/-- `ProjectAnalyzer.generateSmartDeployCommands` (part_004, lines
247-288): the pushes of the source, in source order. -/
def generateSmartDeployCommands (analysis : SmartDeployAnalysis) : List String :=
  (if analysis.needsGitPull then ["git pull origin main"] else []) ++
  (if analysis.needsComposerInstall then
    ["composer install --no-dev --optimize-autoloader"] else []) ++
  (if analysis.needsNpmInstall then ["npm install --production"] else []) ++
  (if analysis.needsNpmBuild then ["npm run build"] else []) ++
  (if analysis.needsLaravelOptimize then ["php artisan optimize:clear"] else []) ++
  (if analysis.needsLaravelMigrate then ["php artisan migrate --force"] else []) ++
  (if analysis.needsNpmBuild || analysis.needsNpmInstall then
    ["pm2 restart 0"] else []) ++
  (if analysis.needsSystemRestart then
    ["sudo systemctl restart php8.3-fpm", "sudo systemctl restart nginx"] else [])

/-- The `server` block of `ServerCommandsConfig` (part_004, lines 32-37). -/
structure ServerBlock where
  host : String
  user : String
  port : Option Nat
  keyPath : Option String
deriving Repr, DecidableEq

/-- The `commands` block of `ServerCommandsConfig` (part_004, lines 38-45). -/
structure CommandsBlock where
  git : Option (List String)
  frontend : Option (List String)
  backend : Option (List String)
  database : Option (List String)
  docker : Option (List String)
  system : Option (List String)
deriving Repr, DecidableEq

/-- `ServerCommandsConfig` (part_004, lines 28-47). -/
structure ServerCommandsConfig where
  enabled : Bool
  autoExecute : Bool
  projectPath : Option String
  server : Option ServerBlock
  commands : CommandsBlock
  whitelist : List String
deriving Repr, DecidableEq

/-- `ServerCommandExecutor.validateConfig`
(WorkflowOrchestrator.ts, lines 473-494).  `envSshPassword` is
`process.env['SSH_PASSWORD']`.  The source performs no check beyond the
four below; in particular it never consults `config.whitelist`. -/
def validateConfig (config : ServerCommandsConfig)
    (envSshPassword : Option String) : List String :=
  match config.server with
  | none => ["Server configuration is missing"]
  | some server =>
    (if server.host == "" then ["Server host is required"] else []) ++
    (if server.user == "" then ["Server user is required"] else []) ++
    (if optStrFalsy server.keyPath && optStrFalsy envSshPassword then
      ["Either SSH key path or SSH_PASSWORD environment variable is required"]
    else [])

/-- `SshExecutionResult` (WorkflowOrchestrator.ts, lines 274-278). -/
structure SshExecutionResult where
  success : Bool
  output : String
  error : Option String
deriving Repr, DecidableEq

/-- Environmental fate of one command of the plan: the remote process
exits with a code and captured streams, the `conn.exec` callback fires
with an error, or the SSH transport fails during that command (the
connection-level `error` event, which rejects the session promise). -/
inductive StepOutcome where
  | exited (code : Int) (output errOutput : String)
  | execFail (msg : String)
  | dropped (msg : String)
deriving Repr, DecidableEq

/-- `ServerCommandExecutor.executeSingleCommand`
(WorkflowOrchestrator.ts, lines 422-460): success is `code === 0` and
nothing else; stdout is trimmed; trimmed-empty stderr becomes
`undefined`.  A `conn.exec` error resolves with a failed result.  (The
`dropped` case never reaches this function; the sequential loop turns it
into a rejection first.) -/
def executeSingleCommand : StepOutcome → SshExecutionResult
  | .exited code output errOutput =>
    { success := code == 0
      output := jsTrim output
      error := if jsTrim errOutput == "" then none else some (jsTrim errOutput) }
  | .execFail msg => { success := false, output := "", error := some msg }
  | .dropped msg => { success := false, output := "", error := some msg }

/-- `ServerCommandExecutor.executeCommandsSequentially`
(WorkflowOrchestrator.ts, lines 375-417), over the plan paired with each
command's environmental outcome.  A non-zero exit is recorded and the
loop continues (`askContinueOnError` always returns `true`, lines
465-468); a transport failure rejects the whole session promise, so the
results accumulated so far are discarded with it. -/
def executeCommandsSequentially :
    List ((String × String) × StepOutcome) →
      Except String (List SshExecutionResult)
  | [] => .ok []
  | step :: rest =>
    match step.2 with
    | .dropped msg => .error msg
    | o =>
      match executeCommandsSequentially rest with
      | .ok results => .ok (executeSingleCommand o :: results)
      | .error msg => .error msg

/-- Behaviour of the SSH transport for one invocation: the connection
attempt is refused (the `error` event fires before `ready`), or the
session becomes ready and each command meets the listed outcome. -/
inductive TransportBehavior where
  | refuse (msg : String)
  | ready (outcomes : List StepOutcome)

/-- `ServerCommandExecutor.executeViaSsh` (WorkflowOrchestrator.ts,
lines 329-370): a refused connection rejects with the connection error;
otherwise the commands run sequentially over the single session. -/
def executeViaSsh (transport : TransportBehavior)
    (commands : List (String × String)) :
    Except String (List SshExecutionResult) :=
  match transport with
  | .refuse msg => .error msg
  | .ready outcomes => executeCommandsSequentially (commands.zip outcomes)

/-- The command-collection block of `ServerCommandExecutor.executeCommands`
(WorkflowOrchestrator.ts, lines 295-314): category lists flattened in
the fixed order git, frontend, backend, database, docker, system. -/
def collectAllCommands (c : CommandsBlock) : List (String × String) :=
  (c.git.getD []).map (fun cmd => ("git", cmd)) ++
  (c.frontend.getD []).map (fun cmd => ("frontend", cmd)) ++
  (c.backend.getD []).map (fun cmd => ("backend", cmd)) ++
  (c.database.getD []).map (fun cmd => ("database", cmd)) ++
  (c.docker.getD []).map (fun cmd => ("docker", cmd)) ++
  (c.system.getD []).map (fun cmd => ("system", cmd))

/-- `ServerCommandExecutor.executeCommands` (WorkflowOrchestrator.ts,
lines 284-324).  An `Except.error` is a thrown error / rejected promise:
the caller receives no result list in that case. -/
def executeCommands (config : ServerCommandsConfig)
    (transport : TransportBehavior) :
    Except String (List SshExecutionResult) :=
  if !config.enabled || config.server.isNone then
    .error "Server commands are disabled or server configuration is missing"
  else
    executeViaSsh transport (collectAllCommands config.commands)

/-- A JSON value, the domain of `JSON.parse` output. -/
inductive Json where
  | null : Json
  | bool (b : Bool) : Json
  | num (n : Int) : Json
  | str (s : String) : Json
  | arr (elems : List Json) : Json
  | obj (fields : List (String × Json)) : Json

/-- Field lookup in a JSON object. -/
def jsonLookup (key : String) : List (String × Json) → Option Json
  | [] => none
  | (k, v) :: rest => if k == key then some v else jsonLookup key rest

/-- Is this JSON value present and a boolean? -/
def isBoolField : Option Json → Bool
  | some (.bool _) => true
  | _ => false

/-- Is this JSON value present and an object? -/
def isObjField : Option Json → Bool
  | some (.obj _) => true
  | _ => false

/-- Is this JSON value present and an array of strings? -/
def isStringArrayField : Option Json → Bool
  | some (.arr xs) =>
    xs.all fun j =>
      match j with
      | .str _ => true
      | _ => false
  | _ => false

/-- Modelled from the spec: the "required ServerCommandsConfig shape" a
planner response must have — an object carrying the interface's
mandatory fields `enabled` and `autoExecute` (booleans), `commands` (an
object) and `whitelist` (an array of strings), per the
`ServerCommandsConfig` interface (part_004, lines 28-47).  The source
contains no such runtime check; this predicate only states the claim. -/
def hasServerCommandsConfigShape (j : Json) : Bool :=
  match j with
  | .obj fields =>
    isBoolField (jsonLookup "enabled" fields) &&
    isBoolField (jsonLookup "autoExecute" fields) &&
    isObjField (jsonLookup "commands" fields) &&
    isStringArrayField (jsonLookup "whitelist" fields)
  | _ => false

/-- `ProjectInfo` (part_004, lines 6-14). -/
structure ProjectInfo where
  type : String
  framework : Option String
  packageManager : Option String
  hasDocker : Bool
  hasDatabase : Bool
  files : List String
  directories : List String

/-- `ProjectAnalyzer.getDefaultConfig` (part_004, lines 460-485). -/
def getDefaultConfig (projectInfo : ProjectInfo) : ServerCommandsConfig :=
  let config : ServerCommandsConfig :=
    { enabled := true
      autoExecute := false
      projectPath := some "/var/www/html"
      server := none
      commands := ⟨none, none, none, none, none, none⟩
      whitelist := [] }
  if projectInfo.type == "php" then
    { config with
      commands :=
        { config.commands with
          backend := some ["composer install --no-dev --optimize-autoloader",
            "php artisan config:cache", "php artisan route:cache",
            "php artisan view:cache"]
          database := some ["php artisan migrate --force"] }
      whitelist := ["composer", "php artisan", "sudo systemctl"] }
  else if projectInfo.type == "nodejs" then
    { config with
      commands :=
        { config.commands with
          frontend := some ["npm run build"]
          backend := some ["npm install --production"] }
      whitelist := ["npm", "yarn", "pnpm", "sudo systemctl"] }
  else config

/-- The JSON value denoting an optional list-of-strings field of the
`commands` block. -/
def encodeCommandField (name : String) : Option (List String) →
    List (String × Json)
  | none => []
  | some xs => [(name, Json.arr (xs.map Json.str))]

/-- The JSON value a `CommandsBlock` record denotes. -/
def encodeCommandsBlock (c : CommandsBlock) : Json :=
  .obj (encodeCommandField "git" c.git ++
    encodeCommandField "frontend" c.frontend ++
    encodeCommandField "backend" c.backend ++
    encodeCommandField "database" c.database ++
    encodeCommandField "docker" c.docker ++
    encodeCommandField "system" c.system)

/-- The JSON value a `ServerBlock` record denotes. -/
def encodeServerBlock (s : ServerBlock) : Json :=
  .obj ([("host", Json.str s.host), ("user", Json.str s.user)] ++
    (match s.port with
     | some p => [("port", Json.num (Int.ofNat p))]
     | none => []) ++
    (match s.keyPath with
     | some k => [("keyPath", Json.str k)]
     | none => []))

/-- The JSON value a `ServerCommandsConfig` record denotes (the shape the
source's hard-coded defaults would serialise to). -/
def encodeServerCommandsConfig (cfg : ServerCommandsConfig) : Json :=
  .obj ([("enabled", Json.bool cfg.enabled),
    ("autoExecute", Json.bool cfg.autoExecute)] ++
    (match cfg.projectPath with
     | some p => [("projectPath", Json.str p)]
     | none => []) ++
    (match cfg.server with
     | some s => [("server", encodeServerBlock s)]
     | none => []) ++
    [("commands", encodeCommandsBlock cfg.commands),
     ("whitelist", Json.arr (cfg.whitelist.map Json.str))])

/-- `ProjectAnalyzer.generateServerCommandsConfig` (part_004, lines
293-361), restricted to its response handling (lines 355-361).
`parsedResponse` is the outcome of `JSON.parse(response)`: `none` when
the parse throws, `some j` the parsed value otherwise.  On success the
parsed value is returned as-is (the cast at line 356 performs no shape
check); only a parse failure falls back to the default configuration. -/
def generateServerCommandsConfig (parsedResponse : Option Json)
    (projectInfo : ProjectInfo) : Json :=
  match parsedResponse with
  | some j => j
  | none => encodeServerCommandsConfig (getDefaultConfig projectInfo)

/-- The fixed full command sequence of `generateSmartDeployCommands`
(part_004, lines 247-288), in emission order. -/
def masterDeployCommands : List String :=
  ["git pull origin main", "composer install --no-dev --optimize-autoloader",
    "npm install --production", "npm run build", "php artisan optimize:clear",
    "php artisan migrate --force", "pm2 restart 0",
    "sudo systemctl restart php8.3-fpm", "sudo systemctl restart nginx"]

/-- C1: the spec requires `validateConfig` to reject every planned
command that matches no whitelist entry, and with whitelist `["npm"]`
and planned command `rm -rf /` to return a non-empty error list.  The
source never consults the whitelist: on exactly that scenario (a config
whose `system` commands hold `rm -rf /`, whitelist `["npm"]`, and an
otherwise complete connection block) `validateConfig` returns the empty
error list, even though the planned command is collected for execution
and matches no whitelist entry — so the CLI proceeds to connect. -/
theorem c1_whitelist_not_enforced :
    validateConfig
      { enabled := true, autoExecute := false,
        projectPath := some "/var/www/html",
        server := some ⟨"h", "u", some 22, some "/k"⟩,
        commands := ⟨none, none, none, none, none, some ["rm -rf /"]⟩,
        whitelist := ["npm"] } none = [] ∧
    ("rm -rf /") ∈
      (collectAllCommands
        ⟨none, none, none, none, none, some ["rm -rf /"]⟩).map Prod.snd ∧
    (["npm"].all fun w => !(jsStartsWith "rm -rf /" w)) = true := by
  refine ⟨rfl, ?_, by decide⟩
  decide

/-- C3 counterexample: the claim says the degraded decision sets every
need-flag true; on the diff-failure input the code leaves the migration
and service-restart flags false. -/
theorem c3_fallback_not_all_flags :
    (analyzeChangesForSmartDeploy "php" (some "laravel") none).needsLaravelMigrate
        = false ∧
    (analyzeChangesForSmartDeploy "php" (some "laravel") none).needsSystemRestart
        = false := by
  exact ⟨rfl, rfl⟩

/-- C3 amended: whenever the git diff cannot be obtained,
`analyzeChangesForSmartDeploy` returns the degraded decision whose
git-pull, composer-install, npm-install, npm-build and laravel-optimize
flags are true, whose migrate and system-restart flags remain false,
with the single reason `Git analysis failed, running full deployment`. -/
theorem c3_fallback_decision (actualProjectType : String)
    (projectFramework : Option String) :
    analyzeChangesForSmartDeploy actualProjectType projectFramework none =
      { needsGitPull := true, needsComposerInstall := true,
        needsComposerUpdate := false, needsNpmInstall := true,
        needsNpmBuild := true, needsLaravelOptimize := true,
        needsLaravelMigrate := false, needsSystemRestart := false,
        reasons := ["Git analysis failed, running full deployment"] } := rfl

/-- C9 counterexample: a response that parses as JSON but lacks the
`ServerCommandsConfig` shape (the empty object `{}`) is propagated
unchanged by `generateServerCommandsConfig` instead of being replaced by
the per-project-type default configuration. -/
theorem c9_malformed_shape_propagates :
    hasServerCommandsConfigShape (Json.obj []) = false ∧
    generateServerCommandsConfig (some (Json.obj []))
        ⟨"nodejs", none, none, false, false, [], []⟩ ≠
      encodeServerCommandsConfig
        (getDefaultConfig ⟨"nodejs", none, none, false, false, [], []⟩) := by
  constructor
  · rfl
  · intro h
    simp [generateServerCommandsConfig, encodeServerCommandsConfig,
      getDefaultConfig, encodeCommandsBlock, encodeCommandField] at h

/-- C9 amended: the planner falls back to the hard-coded
per-project-type default configuration exactly when the response fails
to parse as JSON; a response that parses is returned as-is, with no
shape validation. -/
theorem c9_fallback_only_on_parse_failure (projectInfo : ProjectInfo)
    (j : Json) :
    generateServerCommandsConfig none projectInfo =
        encodeServerCommandsConfig (getDefaultConfig projectInfo) ∧
      generateServerCommandsConfig (some j) projectInfo = j :=
  ⟨rfl, rfl⟩

/-- C2 counterexample: on the empty change set the decision's git-pull
flag is true and the generated command plan is the singleton
`git pull origin main`, not the empty list the claim requires. -/
theorem c2_empty_changes_plan_not_empty :
    (analyzeChangesForSmartDeploy "php" none (some "")).needsGitPull = true ∧
    generateSmartDeployCommands
        (analyzeChangesForSmartDeploy "php" none (some "")) =
      ["git pull origin main"] ∧
    generateSmartDeployCommands
        (analyzeChangesForSmartDeploy "php" none (some "")) ≠ [] := by
  refine ⟨rfl, by decide, by decide⟩

theorem analyzeFile_needsGitPull (t : String) (fw : Option String)
    (acc : SmartDeployAnalysis) (f : String) :
    (analyzeFile t fw acc f).needsGitPull = acc.needsGitPull := by
  unfold analyzeFile
  dsimp only
  (repeat' split) <;> rfl

theorem analyzeFile_no_match (t : String) (fw : Option String)
    (acc : SmartDeployAnalysis) (f : String)
    (h : matchesAnyPredicate t fw f = false) :
    analyzeFile t fw acc f = acc := by
  simp only [matchesAnyPredicate, Bool.or_eq_false_iff] at h
  obtain ⟨⟨⟨h1, h2⟩, hbr⟩, h4⟩ := h
  by_cases hA : (t == "php" && fw == some "laravel") = true
  · rw [if_pos hA] at hbr
    simp only [Bool.or_eq_false_iff] at hbr
    obtain ⟨⟨hL1, hL2⟩, hL3⟩ := hbr
    unfold analyzeFile
    simp [hA, h1, h2, h4, hL1, hL2, hL3]
  · rw [if_neg hA] at hbr
    by_cases hB : (t == "nodejs") = true
    · rw [if_pos hB] at hbr
      unfold analyzeFile
      simp [hA, hB, h1, h2, h4, hbr]
    · unfold analyzeFile
      simp [hA, hB, h1, h2, h4]

theorem foldl_analyzeFile_needsGitPull (t : String) (fw : Option String)
    (files : List String) (acc : SmartDeployAnalysis) :
    (files.foldl (analyzeFile t fw) acc).needsGitPull = acc.needsGitPull := by
  induction files generalizing acc with
  | nil => rfl
  | cons f fs ih =>
    simp only [List.foldl_cons]
    rw [ih, analyzeFile_needsGitPull]

theorem foldl_analyzeFile_no_match (t : String) (fw : Option String)
    (files : List String) (acc : SmartDeployAnalysis)
    (h : ∀ f ∈ files, matchesAnyPredicate t fw f = false) :
    files.foldl (analyzeFile t fw) acc = acc := by
  induction files generalizing acc with
  | nil => rfl
  | cons f fs ih =>
    simp only [List.foldl_cons]
    rw [analyzeFile_no_match t fw acc f (h f (List.mem_cons_self f fs))]
    exact ih acc fun g hg => h g (List.mem_cons_of_mem f hg)

theorem analyze_needsGitPull (t : String) (fw : Option String)
    (d : Option String) :
    (analyzeChangesForSmartDeploy t fw d).needsGitPull = true := by
  cases d with
  | none => rfl
  | some raw =>
    unfold analyzeChangesForSmartDeploy
    dsimp only
    split
    · rfl
    · rw [foldl_analyzeFile_needsGitPull]

theorem gen_cons_of_gitPull (a : SmartDeployAnalysis)
    (h : a.needsGitPull = true) :
    ∃ tl, generateSmartDeployCommands a = "git pull origin main" :: tl :=
  ⟨(if a.needsComposerInstall then
      ["composer install --no-dev --optimize-autoloader"] else []) ++
    (if a.needsNpmInstall then ["npm install --production"] else []) ++
    (if a.needsNpmBuild then ["npm run build"] else []) ++
    (if a.needsLaravelOptimize then ["php artisan optimize:clear"] else []) ++
    (if a.needsLaravelMigrate then ["php artisan migrate --force"] else []) ++
    (if a.needsNpmBuild || a.needsNpmInstall then ["pm2 restart 0"] else []) ++
    (if a.needsSystemRestart then
      ["sudo systemctl restart php8.3-fpm", "sudo systemctl restart nginx"]
    else []),
    by unfold generateSmartDeployCommands; rw [h]; rfl⟩

/-- C10: `analyzeChangesForSmartDeploy` initialises `needsGitPull` to
true and never clears it, on every input — the real-diff path, the empty
diff and the diff-failure fallback alike — so the generated command list
is never empty and always starts with `git pull origin main`. -/
theorem c10_git_pull_always (t : String) (fw : Option String)
    (d : Option String) :
    (analyzeChangesForSmartDeploy t fw d).needsGitPull = true ∧
      ∃ tl, generateSmartDeployCommands (analyzeChangesForSmartDeploy t fw d) =
        "git pull origin main" :: tl :=
  ⟨analyze_needsGitPull t fw d,
    gen_cons_of_gitPull _ (analyze_needsGitPull t fw d)⟩

/-- C2 amended: for every change set in which no path matches any
category predicate — including the empty change set —
`analyzeChangesForSmartDeploy` leaves every need-flag except the
always-true `needsGitPull` false, the empty diff carries the single
reason `No changes detected in last commit` and a non-empty one the
single reason `Detected changes in N files`, and
`generateSmartDeployCommands` returns the singleton plan
`["git pull origin main"]` rather than the empty list. -/
theorem c2_no_match_only_git_pull (t : String) (fw : Option String)
    (raw : String)
    (h : ∀ f ∈ changedFilesOf raw, matchesAnyPredicate t fw f = false) :
    (analyzeChangesForSmartDeploy t fw (some raw)).needsComposerInstall = false ∧
    (analyzeChangesForSmartDeploy t fw (some raw)).needsComposerUpdate = false ∧
    (analyzeChangesForSmartDeploy t fw (some raw)).needsNpmInstall = false ∧
    (analyzeChangesForSmartDeploy t fw (some raw)).needsNpmBuild = false ∧
    (analyzeChangesForSmartDeploy t fw (some raw)).needsLaravelOptimize = false ∧
    (analyzeChangesForSmartDeploy t fw (some raw)).needsLaravelMigrate = false ∧
    (analyzeChangesForSmartDeploy t fw (some raw)).needsSystemRestart = false ∧
    generateSmartDeployCommands (analyzeChangesForSmartDeploy t fw (some raw)) =
      ["git pull origin main"] ∧
    (jsTrim raw = "" →
      (analyzeChangesForSmartDeploy t fw (some raw)).reasons =
        ["No changes detected in last commit"]) ∧
    (jsTrim raw ≠ "" →
      (analyzeChangesForSmartDeploy t fw (some raw)).reasons =
        ["Detected changes in " ++ toString (changedFilesOf raw).length ++
          " files"]) := by
  have key : analyzeChangesForSmartDeploy t fw (some raw) =
      if (jsTrim raw == "") = true then
        { needsGitPull := true, needsComposerInstall := false,
          needsComposerUpdate := false, needsNpmInstall := false,
          needsNpmBuild := false, needsLaravelOptimize := false,
          needsLaravelMigrate := false, needsSystemRestart := false,
          reasons := ["No changes detected in last commit"] }
      else
        { needsGitPull := true, needsComposerInstall := false,
          needsComposerUpdate := false, needsNpmInstall := false,
          needsNpmBuild := false, needsLaravelOptimize := false,
          needsLaravelMigrate := false, needsSystemRestart := false,
          reasons := ["Detected changes in " ++
            toString (changedFilesOf raw).length ++ " files"] } := by
    unfold analyzeChangesForSmartDeploy
    dsimp only
    by_cases hE : (jsTrim raw == "") = true
    · rw [if_pos hE, if_pos hE]
    · rw [if_neg hE, if_neg hE]
      exact foldl_analyzeFile_no_match t fw _ _ h
  by_cases hE : (jsTrim raw == "") = true
  · rw [key, if_pos hE]
    exact ⟨rfl, rfl, rfl, rfl, rfl, rfl, rfl, rfl, fun _ => rfl,
      fun hne => absurd (eq_of_beq hE) hne⟩
  · rw [key, if_neg hE]
    exact ⟨rfl, rfl, rfl, rfl, rfl, rfl, rfl, rfl,
      fun heq => absurd (beq_iff_eq.mpr heq) hE, fun _ => rfl⟩

theorem c2_no_match_only_git_pull_witness :
    (∀ f ∈ changedFilesOf "README.md", matchesAnyPredicate "php" none f = false) ∧
    generateSmartDeployCommands
        (analyzeChangesForSmartDeploy "php" none (some "README.md")) =
      ["git pull origin main"] :=
  ⟨by decide,
    (c2_no_match_only_git_pull "php" none "README.md"
      (by decide)).2.2.2.2.2.2.2.1⟩

/-- C4 counterexample: a decision produced by the analyzer from a
change set touching only `composer.json` has the backend dependency
install flag set, yet the generated plan contains no process-manager
restart command — a dependency install alone does not trigger
`pm2 restart 0` in the source. -/
theorem c4_composer_install_no_restart :
    (analyzeChangesForSmartDeploy "php" none
        (some "composer.json")).needsComposerInstall = true ∧
    generateSmartDeployCommands
        (analyzeChangesForSmartDeploy "php" none (some "composer.json")) =
      ["git pull origin main",
        "composer install --no-dev --optimize-autoloader"] ∧
    ("pm2 restart 0") ∉
      generateSmartDeployCommands
        (analyzeChangesForSmartDeploy "php" none (some "composer.json")) := by
  decide

set_option maxHeartbeats 1600000 in
theorem c4_aux : ∀ b1 b2 b3 b4 b5 b6 b7 b8 : Bool,
    (b5 = true ∨ b4 = true) →
    ("pm2 restart 0" ∈
        generateSmartDeployCommands ⟨b1, b2, b3, b4, b5, b6, b7, b8, []⟩ ∧
      (b2 = true →
        (generateSmartDeployCommands
            ⟨b1, b2, b3, b4, b5, b6, b7, b8, []⟩).indexOf
          "composer install --no-dev --optimize-autoloader" <
        (generateSmartDeployCommands
            ⟨b1, b2, b3, b4, b5, b6, b7, b8, []⟩).indexOf "pm2 restart 0") ∧
      (b4 = true →
        (generateSmartDeployCommands
            ⟨b1, b2, b3, b4, b5, b6, b7, b8, []⟩).indexOf
          "npm install --production" <
        (generateSmartDeployCommands
            ⟨b1, b2, b3, b4, b5, b6, b7, b8, []⟩).indexOf "pm2 restart 0") ∧
      (b5 = true →
        (generateSmartDeployCommands
            ⟨b1, b2, b3, b4, b5, b6, b7, b8, []⟩).indexOf "npm run build" <
        (generateSmartDeployCommands
            ⟨b1, b2, b3, b4, b5, b6, b7, b8, []⟩).indexOf "pm2 restart 0")) := by
  decide

/-- C4 amended: whenever the frontend build flag or the frontend (npm)
install flag is set, the generated plan contains `pm2 restart 0`, placed
after the backend install, frontend install and frontend build commands
that are present; a backend (composer) install alone does not trigger
the restart. -/
theorem c4_restart_follows_npm (a : SmartDeployAnalysis)
    (h : a.needsNpmBuild = true ∨ a.needsNpmInstall = true) :
    "pm2 restart 0" ∈ generateSmartDeployCommands a ∧
    (a.needsComposerInstall = true →
      (generateSmartDeployCommands a).indexOf
        "composer install --no-dev --optimize-autoloader" <
      (generateSmartDeployCommands a).indexOf "pm2 restart 0") ∧
    (a.needsNpmInstall = true →
      (generateSmartDeployCommands a).indexOf "npm install --production" <
      (generateSmartDeployCommands a).indexOf "pm2 restart 0") ∧
    (a.needsNpmBuild = true →
      (generateSmartDeployCommands a).indexOf "npm run build" <
      (generateSmartDeployCommands a).indexOf "pm2 restart 0") := by
  obtain ⟨b1, b2, b3, b4, b5, b6, b7, b8, rs⟩ := a
  exact c4_aux b1 b2 b3 b4 b5 b6 b7 b8 h

theorem c4_restart_follows_npm_witness :
    "pm2 restart 0" ∈
      generateSmartDeployCommands
        ⟨true, false, false, true, false, false, false, false, []⟩ :=
  (c4_restart_follows_npm ⟨true, false, false, true, false, false, false, false, []⟩
    (Or.inr rfl)).1

/-- C5: over a connected session, a plan of three commands whose second
command exits non-zero (and first and third exit zero) yields a result
list of length three whose middle entry failed and whose outer entries
carry their own independent outcomes — execution continues past the
failure — and a command's success is exit code 0 and nothing else. -/
theorem c5_failure_continuation (cmd1 cmd2 cmd3 : String × String)
    (code1 code2 code3 : Int)
    (out1 errOut1 out2 errOut2 out3 errOut3 : String)
    (h1 : code1 = 0) (h2 : code2 ≠ 0) (h3 : code3 = 0) :
    executeCommandsSequentially
      [(cmd1, .exited code1 out1 errOut1), (cmd2, .exited code2 out2 errOut2),
        (cmd3, .exited code3 out3 errOut3)] =
      Except.ok
        [{ success := true, output := jsTrim out1,
            error := if jsTrim errOut1 == "" then none
              else some (jsTrim errOut1) },
          { success := false, output := jsTrim out2,
            error := if jsTrim errOut2 == "" then none
              else some (jsTrim errOut2) },
          { success := true, output := jsTrim out3,
            error := if jsTrim errOut3 == "" then none
              else some (jsTrim errOut3) }] ∧
    (∀ (code : Int) (out errOut : String),
      (executeSingleCommand (.exited code out errOut)).success = true ↔
        code = 0) := by
  constructor
  · subst h1
    subst h3
    simp [executeCommandsSequentially, executeSingleCommand, h2]
  · intro code out errOut
    simp [executeSingleCommand]

theorem c5_failure_continuation_witness :
    (1 : Int) ≠ 0 ∧
    executeCommandsSequentially
      [(("git", "git pull origin main"), StepOutcome.exited 0 "" ""),
        (("backend", "composer install"), StepOutcome.exited 1 "" "boom"),
        (("system", "sudo systemctl restart nginx"),
          StepOutcome.exited 0 "" "")] =
      Except.ok
        [{ success := true, output := "", error := none },
          { success := false, output := "", error := some "boom" },
          { success := true, output := "", error := none }] :=
  ⟨by decide,
    (c5_failure_continuation ("git", "git pull origin main")
      ("backend", "composer install") ("system", "sudo systemctl restart nginx")
      0 1 0 "" "" "" "boom" "" "" rfl (by decide) rfl).1⟩

set_option maxHeartbeats 1600000 in
theorem c6_aux : ∀ b1 b2 b3 b4 b5 b6 b7 b8 : Bool,
    List.Sublist
      (generateSmartDeployCommands ⟨b1, b2, b3, b4, b5, b6, b7, b8, []⟩)
      masterDeployCommands ∧
    (b2 = true → b5 = true →
      (generateSmartDeployCommands
          ⟨b1, b2, b3, b4, b5, b6, b7, b8, []⟩).indexOf
        "composer install --no-dev --optimize-autoloader" <
      (generateSmartDeployCommands
          ⟨b1, b2, b3, b4, b5, b6, b7, b8, []⟩).indexOf "npm run build" ∧
      (generateSmartDeployCommands
          ⟨b1, b2, b3, b4, b5, b6, b7, b8, []⟩).indexOf "npm run build" <
      (generateSmartDeployCommands
          ⟨b1, b2, b3, b4, b5, b6, b7, b8, []⟩).indexOf "pm2 restart 0") ∧
    (b4 = true → b5 = true →
      (generateSmartDeployCommands
          ⟨b1, b2, b3, b4, b5, b6, b7, b8, []⟩).indexOf
        "npm install --production" <
      (generateSmartDeployCommands
          ⟨b1, b2, b3, b4, b5, b6, b7, b8, []⟩).indexOf "npm run build" ∧
      (generateSmartDeployCommands
          ⟨b1, b2, b3, b4, b5, b6, b7, b8, []⟩).indexOf "npm run build" <
      (generateSmartDeployCommands
          ⟨b1, b2, b3, b4, b5, b6, b7, b8, []⟩).indexOf "pm2 restart 0") := by
  decide

/-- C6: every generated plan is a subsequence of the fixed master
sequence (source sync, backend install, frontend install, frontend
build, framework optimize, migration, process-manager restart, service
restarts), so no later phase ever precedes an earlier one; in
particular, when an install flag and the build flag are both set the
install command's index is below the build command's index, which is
below the restart command's index. -/
theorem c6_fixed_phase_order (a : SmartDeployAnalysis) :
    List.Sublist (generateSmartDeployCommands a) masterDeployCommands ∧
    (a.needsComposerInstall = true → a.needsNpmBuild = true →
      (generateSmartDeployCommands a).indexOf
        "composer install --no-dev --optimize-autoloader" <
      (generateSmartDeployCommands a).indexOf "npm run build" ∧
      (generateSmartDeployCommands a).indexOf "npm run build" <
      (generateSmartDeployCommands a).indexOf "pm2 restart 0") ∧
    (a.needsNpmInstall = true → a.needsNpmBuild = true →
      (generateSmartDeployCommands a).indexOf "npm install --production" <
      (generateSmartDeployCommands a).indexOf "npm run build" ∧
      (generateSmartDeployCommands a).indexOf "npm run build" <
      (generateSmartDeployCommands a).indexOf "pm2 restart 0") := by
  obtain ⟨b1, b2, b3, b4, b5, b6, b7, b8, rs⟩ := a
  exact c6_aux b1 b2 b3 b4 b5 b6 b7 b8

theorem c6_fixed_phase_order_witness :
    (generateSmartDeployCommands
        ⟨true, true, false, true, true, true, true, true, []⟩).indexOf
      "composer install --no-dev --optimize-autoloader" <
    (generateSmartDeployCommands
        ⟨true, true, false, true, true, true, true, true, []⟩).indexOf
      "npm run build" :=
  ((c6_fixed_phase_order
    ⟨true, true, false, true, true, true, true, true, []⟩).2.1 rfl rfl).1

/-- C7: `validateConfig` returns a non-empty error list when the server
block is missing or when host or user is empty; when the server block is
present it reports the distinct credential error exactly when both the
key path and the externally supplied `SSH_PASSWORD` secret are absent;
and it returns the empty list for host `h`, user `u`, key path `/k` with
a satisfied whitelist. -/
theorem c7_validateConfig_checks (cfg : ServerCommandsConfig)
    (env : Option String) :
    (cfg.server = none → validateConfig cfg env ≠ []) ∧
    (∀ s : ServerBlock, cfg.server = some s → s.host = "" →
      validateConfig cfg env ≠ []) ∧
    (∀ s : ServerBlock, cfg.server = some s → s.user = "" →
      validateConfig cfg env ≠ []) ∧
    (∀ s : ServerBlock, cfg.server = some s →
      (("Either SSH key path or SSH_PASSWORD environment variable is required" ∈
          validateConfig cfg env) ↔
        (optStrFalsy s.keyPath = true ∧ optStrFalsy env = true))) ∧
    validateConfig
      { enabled := true, autoExecute := false, projectPath := none,
        server := some ⟨"h", "u", none, some "/k"⟩,
        commands := ⟨none, none, none, none, none, none⟩,
        whitelist := ["npm"] } none = [] := by
  refine ⟨?_, ?_, ?_, ?_, rfl⟩
  · intro hs
    unfold validateConfig
    rw [hs]
    simp
  · intro s hs hh
    unfold validateConfig
    rw [hs]
    simp [hh]
  · intro s hs hu
    unfold validateConfig
    rw [hs]
    by_cases hh : (s.host == "") = true <;> simp [hh, hu]
  · intro s hs
    unfold validateConfig
    rw [hs]
    by_cases hk : optStrFalsy s.keyPath = true <;>
      by_cases hp : optStrFalsy env = true <;>
      by_cases hh : (s.host == "") = true <;>
      by_cases hu : (s.user == "") = true <;>
      simp [hk, hp, hh, hu]

theorem c7_validateConfig_checks_witness :
    validateConfig
      { enabled := true, autoExecute := false, projectPath := none,
        server := none, commands := ⟨none, none, none, none, none, none⟩,
        whitelist := [] } none ≠ [] :=
  (c7_validateConfig_checks
    { enabled := true, autoExecute := false, projectPath := none,
      server := none, commands := ⟨none, none, none, none, none, none⟩,
      whitelist := [] } none).1 rfl

/-- C8 counterexample: with a valid, enabled configuration holding two
git commands, where the first command completes successfully and the
transport then drops, `executeCommands` rejects with the transport error
— it does not return a report carrying the completed first result. -/
theorem c8_partial_results_lost :
    executeCommands
      { enabled := true, autoExecute := false,
        projectPath := some "/var/www/html",
        server := some ⟨"h", "u", some 22, some "/k"⟩,
        commands := ⟨some ["git pull origin main", "git status"], none, none,
          none, none, none⟩,
        whitelist := ["git"] }
      (.ready [.exited 0 "ok" "", .dropped "Connection lost"]) =
      Except.error "Connection lost" ∧
    (executeSingleCommand (.exited 0 "ok" "")).success = true :=
  ⟨rfl, rfl⟩

/-- C8 amended: a transport failure while some command is running stops
execution of the remaining plan, and the executor propagates the
transport error as a rejection; the results of the commands that already
completed are discarded with it rather than returned in a partial
report. -/
theorem c8_dropped_discards_results
    (pre : List ((String × String) × StepOutcome)) (cmd : String × String)
    (msg : String) (post : List ((String × String) × StepOutcome))
    (h : ∀ p ∈ pre, ∀ m, p.2 ≠ StepOutcome.dropped m) :
    executeCommandsSequentially (pre ++ (cmd, StepOutcome.dropped msg) :: post) =
      Except.error msg := by
  induction pre with
  | nil => rfl
  | cons p ps ih =>
    have hp := h p (List.mem_cons_self p ps)
    have hrest :
        executeCommandsSequentially
          (ps ++ (cmd, StepOutcome.dropped msg) :: post) = Except.error msg :=
      ih fun q hq => h q (List.mem_cons_of_mem p hq)
    rw [List.cons_append]
    cases ho : p.2 with
    | dropped m => exact absurd ho (hp m)
    | exited code out errOut =>
      simp only [executeCommandsSequentially, ho, hrest]
    | execFail m =>
      simp only [executeCommandsSequentially, ho, hrest]

theorem c8_dropped_discards_results_witness :
    executeCommandsSequentially
      [(("git", "git pull origin main"), StepOutcome.exited 0 "ok" ""),
        (("git", "git status"), StepOutcome.dropped "Connection lost")] =
      Except.error "Connection lost" :=
  c8_dropped_discards_results
    [(("git", "git pull origin main"), StepOutcome.exited 0 "ok" "")]
    ("git", "git status") "Connection lost" []
    (by
      intro p hp m
      rw [List.mem_singleton] at hp
      subst hp
      intro hEq
      cases hEq)
